import Mathlib

/-!
Shallow embedding of the telco_dwh_project batch ETL pipeline.

The embedding follows the Python sources:
  - `config_settings.py` (constants),
  - `common/sql_queries.py` (DDL, the identity function, DQ queries, retention SQL),
  - `pipelines/telco_billings_pipeline.py` (validator, loader, DQ checker,
    view refresher, retention enforcer),
  - `main.py` (orchestrator `run_etl_process`).

Modelling conventions:
  - Every SQL cell value is represented by its PostgreSQL text rendering,
    `Option String` with `none` for SQL NULL.  `copy_from` is called with the
    empty string as its NULL marker, so an empty CSV field is stored as NULL,
    which the model mirrors in `rawToStagedCell`.
  - The MD5 digest is an abstract parameter `md5 : String → String`; nothing is
    assumed about it except what each theorem states explicitly.
  - Timestamp interpretation (`CURRENT_TIMESTAMP`, interval arithmetic) is a
    parameter bundle `TimeModel`.
  - Database exceptions raised by the driver are injected through explicit
    fault flags / `QueryOutcome.raise`; the `try/except` structure of each
    Python function is translated around them.
-/

namespace TelcoDwh

/-- `EXPECTED_CSV_COLUMNS` from `config_settings.py`. -/
def EXPECTED_CSV_COLUMNS : Nat := 9

/-- One raw CSV record: its fields as text, as produced by `csv.reader`. -/
abbrev RawRow := List String

/-- A row of the TEMP staging table (same column shape as the permanent table
minus the identity column).  Cells hold the text rendering of the stored value,
`none` for SQL NULL. -/
structure StagedRow where
  customer_id : Option String
  event_start_time : Option String
  event_type : Option String
  rate_plan_id : Option String
  billing_flag_one : Option String
  billing_flag_two : Option String
  duration : Option String
  charge : Option String
  month : Option String
deriving DecidableEq

/-- A row of the permanent table `telco_billings_usage` (see
`SQL_CREATE_MAIN_TABLE`): the nine business columns plus the
`event_uuid VARCHAR(32) PRIMARY KEY` identity column. -/
structure PermRow where
  customer_id : Option String
  event_start_time : Option String
  event_type : Option String
  rate_plan_id : Option String
  billing_flag_one : Option String
  billing_flag_two : Option String
  duration : Option String
  charge : Option String
  month : Option String
  event_uuid : String
deriving DecidableEq

/-- The database state visible to the pipeline: the permanent table, the
identity function, the secondary indexes (name and indexed column) and the
analytics views. -/
structure DB where
  tableExists : Bool
  telco_billings_usage : List PermRow
  funcExists : Bool
  indexes : List (String × String)
  views : List String
deriving DecidableEq

/-- `COALESCE(x::TEXT, ...)` on a possibly-NULL text rendering. -/
def pgCoalesceText (v : Option String) : String := v.getD ""

/-- The body of the SQL function `generate_event_uuid` from
`SQL_GENERATE_UUID_FUNCTION`: concatenate the five business fields, each
coerced to text with COALESCE default of the empty string, joined by
underscores, and digest the result. -/
def generate_event_uuid_body (md5 : String → String)
    (p_customer_id p_event_time p_event_type p_rate_plan_id p_charge : Option String) :
    String :=
  md5 (pgCoalesceText p_customer_id ++ "_" ++ pgCoalesceText p_event_time ++ "_" ++
       pgCoalesceText p_event_type ++ "_" ++ pgCoalesceText p_rate_plan_id ++ "_" ++
       pgCoalesceText p_charge)

/-- `generate_event_uuid` as declared: `LANGUAGE plpgsql IMMUTABLE STRICT`.
Under `STRICT`, PostgreSQL returns NULL without executing the function body
whenever any argument is NULL; the body (with its COALESCE defaults) only runs
when all five arguments are non-NULL. -/
def generate_event_uuid (md5 : String → String)
    (p_customer_id p_event_time p_event_type p_rate_plan_id p_charge : Option String) :
    Option String :=
  match p_customer_id, p_event_time, p_event_type, p_rate_plan_id, p_charge with
  | some a, some b, some c, some d, some e =>
      some (generate_event_uuid_body md5 (some a) (some b) (some c) (some d) (some e))
  | _, _, _, _, _ => none

/-- The two error kinds of `validate_csv_structure`: `FileNotFoundError` when
the path does not exist, and the `ValueError` carrying the 1-based row index,
the expected column count and the found column count. -/
inductive CsvError where
  | fileNotFound : CsvError
  | valueError (rowIndex expected found : Nat) : CsvError
deriving DecidableEq

/-- The row loop of `validate_csv_structure`: enumerate rows from index `i`,
stop after the first five rows, and fail on the first row whose column count
differs from the expected count. -/
def checkCsvRows (expected_cols : Nat) : Nat → List RawRow → Except CsvError Bool
  | _, [] => .ok true
  | i, row :: rest =>
    if i ≥ 5 then .ok true
    else if row.length ≠ expected_cols then
      .error (.valueError (i + 1) expected_cols row.length)
    else checkCsvRows expected_cols (i + 1) rest

/-- `validate_csv_structure` from `telco_billings_pipeline.py`.  The file
system argument is `none` when the path does not exist, `some rows` with the
parsed CSV records otherwise. -/
def validate_csv_structure (file : Option (List RawRow)) : Except CsvError Bool :=
  match file with
  | none => .error .fileNotFound
  | some rows => checkCsvRows EXPECTED_CSV_COLUMNS 0 rows

/-- `copy_from` is called with `null` set to the empty string: an empty CSV
field is stored as SQL NULL. -/
def rawToStagedCell (s : String) : Option String :=
  if s = "" then none else some s

/-- Conversion of one accepted 9-column CSV record into a staging-table row,
following the staging column order. -/
def rawToStaged (r : RawRow) : StagedRow :=
  { customer_id := rawToStagedCell (r.getD 0 "")
    event_start_time := rawToStagedCell (r.getD 1 "")
    event_type := rawToStagedCell (r.getD 2 "")
    rate_plan_id := rawToStagedCell (r.getD 3 "")
    billing_flag_one := rawToStagedCell (r.getD 4 "")
    billing_flag_two := rawToStagedCell (r.getD 5 "")
    duration := rawToStagedCell (r.getD 6 "")
    charge := rawToStagedCell (r.getD 7 "")
    month := rawToStagedCell (r.getD 8 "") }

/-- The CSV reading loop of `load_telco_data`: rows whose column count differs
from `EXPECTED_CSV_COLUMNS` are skipped with a logged warning; the accepted
rows, in order, are what reaches the staging table. -/
def parseAccepted (file : List RawRow) : List StagedRow :=
  (file.filter (fun r => decide (r.length = EXPECTED_CSV_COLUMNS))).map rawToStaged

/-- `NON_PK_INDEXES_TO_CREATE` from `sql_queries.py`, as (index name, indexed
column) pairs; each create statement uses CREATE INDEX IF NOT EXISTS. -/
def NON_PK_INDEXES_TO_CREATE : List (String × String) :=
  [("idx_billing_customer_id", "customer_id"),
   ("idx_billing_event_time", "event_start_time"),
   ("idx_billing_event_type", "event_type"),
   ("idx_billing_month", "month")]

/-- `NON_PK_INDEXES_TO_RECREATE` from `sql_queries.py`, as (index name,
indexed column) pairs; each statement is a plain CREATE INDEX. -/
def NON_PK_INDEXES_TO_RECREATE : List (String × String) :=
  [("idx_billing_customer_id", "customer_id"),
   ("idx_billing_event_time", "event_start_time"),
   ("idx_billing_event_type", "event_type"),
   ("idx_billing_month", "month")]

/-- The names of the four secondary indexes. -/
def nonPkIndexNames : List String := NON_PK_INDEXES_TO_CREATE.map Prod.fst

/-- The index-drop loop of `load_telco_data`: for each secondary index name,
query `pg_class` and drop the index when it exists. -/
def dropNonPkIndexes (db : DB) : DB :=
  { db with indexes := db.indexes.filter (fun p => decide (p.1 ∉ nonPkIndexNames)) }

/-- The index-recreate loop of `load_telco_data`: run every statement of
`NON_PK_INDEXES_TO_RECREATE` (the four names are absent after the drop loop,
so the plain CREATE INDEX statements succeed). -/
def recreateNonPkIndexes (db : DB) : DB :=
  { db with indexes := db.indexes ++ NON_PK_INDEXES_TO_RECREATE }

/-- The merge INSERT builds the permanent row from the staged columns `s.*`
followed by the computed `event_uuid`. -/
def permRowOf (s : StagedRow) (u : String) : PermRow :=
  { customer_id := s.customer_id
    event_start_time := s.event_start_time
    event_type := s.event_type
    rate_plan_id := s.rate_plan_id
    billing_flag_one := s.billing_flag_one
    billing_flag_two := s.billing_flag_two
    duration := s.duration
    charge := s.charge
    month := s.month
    event_uuid := u }

/-- The identity computed for a staged row at merge time:
`generate_event_uuid(s.customer_id, s.event_start_time, s.event_type,
s.rate_plan_id, s.charge)`. -/
def stagedUuid (md5 : String → String) (s : StagedRow) : Option String :=
  generate_event_uuid md5 s.customer_id s.event_start_time s.event_type
    s.rate_plan_id s.charge

/-- The identity column of every row of the permanent table. -/
def tableUuids (tbl : List PermRow) : List String := tbl.map PermRow.event_uuid

/-- The merge statement `INSERT INTO telco_billings_usage ... SELECT s.*,
generate_event_uuid(...) FROM staging s ON CONFLICT (event_uuid) DO NOTHING`.
Rows are processed in staging order; a row whose identity already exists
(including one produced earlier in the same statement) is skipped; a NULL
identity violates the primary key NOT NULL constraint and aborts the whole
statement (`none`).  On success, returns the new table together with the
number of rows actually inserted, which is the statement `rowcount`. -/
def mergeRows (md5 : String → String) :
    List StagedRow → List PermRow → Option (List PermRow × Nat)
  | [], tbl => some (tbl, 0)
  | s :: rest, tbl =>
    match stagedUuid md5 s with
    | none => none
    | some u =>
      if u ∈ tableUuids tbl then mergeRows md5 rest tbl
      else
        match mergeRows md5 rest (tbl ++ [permRowOf s u]) with
        | none => none
        | some (tbl2, n) => some (tbl2, n + 1)

/-- `load_telco_data` from `telco_billings_pipeline.py`: create the staging
area, stream the CSV skipping rows of the wrong width, short-circuit with 0
when nothing was accepted, otherwise drop the secondary indexes, run the merge
INSERT, and recreate the indexes.  Errors are surfaced to the caller. -/
def load_telco_data (md5 : String → String) (file : List RawRow) (db : DB) :
    Except String (DB × Int) :=
  if (parseAccepted file).length = 0 then .ok (db, 0)
  else if db.tableExists = false ∨ db.funcExists = false then
    .error "undefined relation or function"
  else
    match mergeRows md5 (parseAccepted file) (dropNonPkIndexes db).telco_billings_usage with
    | none => .error "not-null constraint violation on event_uuid"
    | some (tbl, n) =>
      .ok (recreateNonPkIndexes { dropNonPkIndexes db with telco_billings_usage := tbl },
        (n : Int))

/-- The single result row of `SQL_CHECK_MISSING_VALUES`: three SUM columns
(NULL over the empty set) and the COUNT column. -/
structure MissingRes where
  missing_customer_id : Option Int
  missing_time : Option Int
  missing_event_type : Option Int
  total_rows_checked : Option Int
deriving DecidableEq

/-- Interpretation of timestamp text and of the interval arithmetic used by
the DQ window and the retention cutoff. -/
structure TimeModel where
  toInstant : String → Int
  now : Int
  oneDay : Int
  subMonths : Int → Nat → Int

/-- The WHERE window of `SQL_CHECK_MISSING_VALUES`:
`event_start_time >= CURRENT_TIMESTAMP - INTERVAL ...1 day... AND
event_start_time < CURRENT_TIMESTAMP`.  A NULL `event_start_time` makes the
comparison NULL, so the row is excluded. -/
def timeWithinLastDay (tm : TimeModel) (t : Option String) : Bool :=
  match t with
  | none => false
  | some ts =>
    decide (tm.now - tm.oneDay ≤ tm.toInstant ts) && decide (tm.toInstant ts < tm.now)

/-- `SUM(CASE WHEN col IS NULL THEN 1 ELSE 0 END)` over a row set: SQL SUM is
NULL over the empty set, otherwise the number of rows whose column is NULL. -/
def sqlSumNullIndicator (rows : List PermRow) (f : PermRow → Option String) : Option Int :=
  match rows with
  | [] => none
  | _ => some ((rows.filter (fun r => (f r).isNone)).length : Int)

/-- The semantics of `SQL_CHECK_MISSING_VALUES` from `sql_queries.py`. -/
def SQL_CHECK_MISSING_VALUES (tm : TimeModel) (db : DB) : MissingRes :=
  let checked := db.telco_billings_usage.filter
    (fun r => timeWithinLastDay tm r.event_start_time)
  { missing_customer_id := sqlSumNullIndicator checked (fun r => r.customer_id)
    missing_time := sqlSumNullIndicator checked (fun r => r.event_start_time)
    missing_event_type := sqlSumNullIndicator checked (fun r => r.event_type)
    total_rows_checked := some (checked.length : Int) }

/-- The semantics of `SQL_CHECK_FUTURE_DATES` from `sql_queries.py`:
`COUNT(*) WHERE event_start_time > CURRENT_TIMESTAMP` (NULL excluded). -/
def SQL_CHECK_FUTURE_DATES (tm : TimeModel) (db : DB) : Option Int :=
  some ((db.telco_billings_usage.filter (fun r =>
    match r.event_start_time with
    | none => false
    | some ts => decide (tm.toInstant ts > tm.now))).length : Int)

/-- One `cursor.execute` + `fetchone` interaction as seen by the DQ checker:
either a fetched result (`none` when fetchone returns no row) or a raised
database exception carrying its text. -/
inductive QueryOutcome (α : Type) where
  | ok (fetched : Option α)
  | raise (msg : String)

/-- `run_data_quality_checks` from `telco_billings_pipeline.py`, explicit in
the two query interactions.  The try/except turns any exception into the
result `(False, [exception text as single issue])`; a missing result row only
logs a warning; otherwise the two checks accumulate issues and clear
`quality_good` exactly as the Python code does. -/
def run_data_quality_checks (q_missing : QueryOutcome MissingRes)
    (q_future : QueryOutcome (Option Int)) : Bool × List String :=
  match q_missing with
  | .raise msg => (false, ["DQ Exception: " ++ msg])
  | .ok res_missing =>
    let step1 : Bool × List String :=
      match res_missing with
      | some r =>
        let m_cid := r.missing_customer_id.getD 0
        let m_time := r.missing_time.getD 0
        let m_etype := r.missing_event_type.getD 0
        let total_chk := r.total_rows_checked.getD 0
        if total_chk > 0 ∧ (m_cid > 0 ∨ m_time > 0 ∨ m_etype > 0) then
          (false,
           [s!"Missing values (cust/time/type): {m_cid}/{m_time}/{m_etype} in {total_chk} recent rows."])
        else (true, [])
      | none => (true, [])
    match q_future with
    | .raise msg => (false, ["DQ Exception: " ++ msg])
    | .ok res_future =>
      let step2 : Bool × List String :=
        match res_future with
        | some c0 =>
          let future_count := c0.getD 0
          if future_count > 0 then (false, [s!"Future-dated events: {future_count}."])
          else (true, [])
        | none => (true, [])
      (step1.1 && step2.1, step1.2 ++ step2.2)

/-- `get_sql_delete_old_data` from `sql_queries.py` (whitespace normalised). -/
def get_sql_delete_old_data (retention_period_months : Nat) : String :=
  "DELETE FROM telco_billings_usage WHERE event_start_time < (CURRENT_TIMESTAMP - INTERVAL \x27"
    ++ toString retention_period_months ++ " months\x27);"

/-- The DELETE predicate: `event_start_time < CURRENT_TIMESTAMP - INTERVAL
M months`; a NULL event time compares as NULL, so the row is not deleted. -/
def rowStrictlyOlder (tm : TimeModel) (months : Nat) (r : PermRow) : Bool :=
  match r.event_start_time with
  | none => false
  | some ts => decide (tm.toInstant ts < tm.subMonths tm.now months)

/-- `apply_pipeline_data_retention` from `telco_billings_pipeline.py`: when the
policy is disabled, log and return without issuing any statement; otherwise
run the single bulk DELETE built by `get_sql_delete_old_data`.  The second
component records the SQL statements executed. -/
def apply_pipeline_data_retention (enable_retention_policy : Bool)
    (retention_period_months : Nat) (tm : TimeModel) (db : DB) : DB × List String :=
  if ¬ enable_retention_policy then (db, [])
  else
    let keptRows :=
      db.telco_billings_usage.filter
        (fun r => !(rowStrictlyOlder tm retention_period_months r))
    ({ db with telco_billings_usage := keptRows },
     [get_sql_delete_old_data retention_period_months])

/-- CREATE INDEX IF NOT EXISTS: add the index only when its name is absent. -/
def createIndexIfNotExists (idx : String × String) (ixs : List (String × String)) :
    List (String × String) :=
  if idx.1 ∈ ixs.map Prod.fst then ixs else ixs ++ [idx]

/-- The database effect of `setup_pipeline_db_structure`: CREATE TABLE IF NOT
EXISTS, CREATE OR REPLACE FUNCTION, and the four CREATE INDEX IF NOT EXISTS
statements. -/
def setup_pipeline_db_structure_effect (db : DB) : DB :=
  let ixs := NON_PK_INDEXES_TO_CREATE.foldl
    (fun acc idx => createIndexIfNotExists idx acc) db.indexes
  { db with tableExists := true, funcExists := true, indexes := ixs }

/-- CREATE OR REPLACE VIEW: record the view name when absent. -/
def createOrReplaceView (viewName : String) (vs : List String) : List String :=
  if viewName ∈ vs then vs else vs ++ [viewName]

/-- The database effect of `create_pipeline_analytics_views`: the two
CREATE OR REPLACE VIEW statements. -/
def create_pipeline_analytics_views_effect (db : DB) : DB :=
  let vs := createOrReplaceView "analytics_monthly_trends"
    (createOrReplaceView "analytics_usage_distribution" db.views)
  { db with views := vs }

/-- A psycopg2 connection with autocommit disabled: the durable state and the
in-transaction state. -/
structure Conn where
  committed : DB
  pending : DB
deriving DecidableEq

/-- `conn.commit()`. -/
def Conn.commit (c : Conn) : Conn := { committed := c.pending, pending := c.pending }

/-- Injected database faults, one flag per pipeline stage: `true` means the
database raises an exception while that stage is executing its statements. -/
structure Faults where
  setup : Bool
  load : Bool
  dq : Bool
  views : Bool
  keep : Bool
deriving DecidableEq

/-- The environment-derived configuration used by the orchestrated run. -/
structure Config where
  ENABLE_RETENTION_POLICY : Bool
  RETENTION_PERIOD_MONTHS : Nat
deriving DecidableEq

/-- `setup_pipeline_db_structure` on a connection: run the DDL and commit; on
an exception, roll back and re-raise. -/
def setupStage (fault : Bool) (c : Conn) : Except (String × DB) Conn :=
  if fault then .error ("db error during DDL setup", c.committed)
  else .ok (Conn.commit { c with pending := setup_pipeline_db_structure_effect c.pending })

/-- `load_telco_data` on a connection: stage, merge, recreate indexes and
commit; on an exception, roll back and re-raise. -/
def loadStage (fault : Bool) (md5 : String → String) (file : List RawRow) (c : Conn) :
    Except (String × DB) (Conn × Int) :=
  if fault then .error ("db error during load", c.committed)
  else
    match load_telco_data md5 file c.pending with
    | .error e => .error (e, c.committed)
    | .ok (db2, n) => .ok (Conn.commit { c with pending := db2 }, n)

/-- `run_data_quality_checks` on a connection: the two queries observe the
in-transaction state; the checker itself never raises. -/
def dqStage (fault : Bool) (tm : TimeModel) (c : Conn) : Bool × List String :=
  if fault then run_data_quality_checks (.raise "db error during DQ") (.ok none)
  else
    run_data_quality_checks
      (.ok (some (SQL_CHECK_MISSING_VALUES tm c.pending)))
      (.ok (some (SQL_CHECK_FUTURE_DATES tm c.pending)))

/-- `create_pipeline_analytics_views` on a connection: run the two view
statements and commit; on an exception, roll back and re-raise. -/
def viewsStage (fault : Bool) (c : Conn) : Except (String × DB) Conn :=
  if fault then .error ("db error during view creation", c.committed)
  else .ok (Conn.commit { c with pending := create_pipeline_analytics_views_effect c.pending })

/-- `apply_pipeline_data_retention` on a connection: return immediately when
disabled; otherwise run the DELETE and commit, rolling back on an exception. -/
def retentionStage (fault : Bool) (cfg : Config) (tm : TimeModel) (c : Conn) :
    Except (String × DB) Conn :=
  if ¬ cfg.ENABLE_RETENTION_POLICY then .ok c
  else if fault then .error ("db error during retention delete", c.committed)
  else
    let kept := (apply_pipeline_data_retention true cfg.RETENTION_PERIOD_MONTHS tm c.pending).1
    .ok (Conn.commit { c with pending := kept })

/-- `run_etl_process` from `main.py`: validate, open a connection with
autocommit disabled, then run the stages in order.  Every uncaught exception
aborts the run (sys.exit(1)); the connection is closed, which discards any
uncommitted work, so the durable state on failure is the state committed so
far.  A data quality failure only triggers an alert and does not abort. -/
def run_etl_process (f : Faults) (md5 : String → String) (tm : TimeModel)
    (cfg : Config) (file : Option (List RawRow)) (init : DB) :
    Except String Unit × DB :=
  match validate_csv_structure file with
  | .error _ => (.error "validation failed", init)
  | .ok _ =>
    let rows := file.getD []
    let c0 : Conn := { committed := init, pending := init }
    match setupStage f.setup c0 with
    | .error (e, d) => (.error e, d)
    | .ok c1 =>
      match loadStage f.load md5 rows c1 with
      | .error (e, d) => (.error e, d)
      | .ok (c2, _) =>
        let _dq := dqStage f.dq tm c2
        match viewsStage f.views c2 with
        | .error (e, d) => (.error e, d)
        | .ok c3 =>
          match retentionStage f.keep cfg tm c3 with
          | .error (e, d) => (.error e, d)
          | .ok c4 => (.ok (), c4.committed)

/-- The durable state the per-stage-commit design leaves behind: the composed
effects of every stage completed before the first failure. -/
def expectedDurable (f : Faults) (md5 : String → String) (tm : TimeModel)
    (cfg : Config) (file : Option (List RawRow)) (init : DB) : DB :=
  match validate_csv_structure file with
  | .error _ => init
  | .ok _ =>
    if f.setup then init
    else
      let d1 := setup_pipeline_db_structure_effect init
      if f.load then d1
      else
        match load_telco_data md5 (file.getD []) d1 with
        | .error _ => d1
        | .ok (d2, _) =>
          if f.views then d2
          else
            let d3 := create_pipeline_analytics_views_effect d2
            if cfg.ENABLE_RETENTION_POLICY ∧ f.keep then d3
            else if cfg.ENABLE_RETENTION_POLICY then
              (apply_pipeline_data_retention true cfg.RETENTION_PERIOD_MONTHS tm d3).1
            else d3

/-- Whether the orchestrated run reaches the final success path. -/
def etlRunSucceeds (f : Faults) (md5 : String → String) (cfg : Config)
    (file : Option (List RawRow)) (init : DB) : Bool :=
  (match validate_csv_structure file with | .ok _ => true | .error _ => false) &&
  !f.setup && !f.load &&
  (match load_telco_data md5 (file.getD []) (setup_pipeline_db_structure_effect init) with
   | .ok _ => true | .error _ => false) &&
  !f.views && !(cfg.ENABLE_RETENTION_POLICY && f.keep)

/-- A database with nothing set up yet. -/
def emptyDB : DB :=
  { tableExists := false, telco_billings_usage := [], funcExists := false,
    indexes := [], views := [] }

/-- The five business fields of a staged row, in hash-argument order. -/
def businessTuple (s : StagedRow) :
    Option String × Option String × Option String × Option String × Option String :=
  (s.customer_id, s.event_start_time, s.event_type, s.rate_plan_id, s.charge)

/-- The five business fields of a permanent row. -/
def permBusinessTuple (p : PermRow) :
    Option String × Option String × Option String × Option String × Option String :=
  (p.customer_id, p.event_start_time, p.event_type, p.rate_plan_id, p.charge)

/-- Derived description of the merge: the permanent rows the merge appends,
given the set of identities already seen; used to characterise `mergeRows`. -/
def mergeNewRows (md5 : String → String) : List StagedRow → List String → List PermRow
  | [], _ => []
  | s :: rest, seen =>
    match stagedUuid md5 s with
    | none => []
    | some u =>
      if u ∈ seen then mergeNewRows md5 rest seen
      else permRowOf s u :: mergeNewRows md5 rest (seen ++ [u])

/-- The identity of a business 5-tuple, through `generate_event_uuid`. -/
def tupleUuidStr (md5 : String → String)
    (t : Option String × Option String × Option String × Option String × Option String) :
    String :=
  (generate_event_uuid md5 t.1 t.2.1 t.2.2.1 t.2.2.2.1 t.2.2.2.2).getD ""

/-- A well-formed 9-column CSV record used as a concrete sample. -/
def exRow : RawRow :=
  ["7", "2024-01-01 00:00:00+00", "voice", "3", "0", "1", "2.5", "1.50000000", "2024-01"]

/-- A second well-formed record with a different business tuple. -/
def exRow2 : RawRow :=
  ["8", "2024-01-02 09:30:00+00", "sms", "4", "1", "0", "0.0", "0.25000000", "2024-01"]

/-- A 9-column record whose customer id field is empty, hence NULL in staging. -/
def exNullCidRow : RawRow :=
  ["", "2024-01-01 00:00:00+00", "voice", "3", "0", "1", "2.5", "1.50000000", "2024-01"]

/-- A malformed record: 2 columns instead of 9. -/
def exShortRow : RawRow := ["1", "2"]

/-- An 8-column record, as in the validator sample scenario. -/
def exEightColRow : RawRow := ["7", "t", "voice", "3", "0", "1", "2.5", "1.5"]

/-- The permanent store right after `setup_pipeline_db_structure` on a fresh
database: empty table, identity function present, the four secondary indexes. -/
def exStore : DB :=
  { tableExists := true, telco_billings_usage := [], funcExists := true,
    indexes := NON_PK_INDEXES_TO_CREATE, views := [] }

/-- A concrete time interpretation for witnesses: an instant is the length of
its text, a month subtracts one unit. -/
def exTm : TimeModel :=
  { toInstant := fun s => (s.length : Int), now := 10, oneDay := 3,
    subMonths := fun a m => a - (m : Int) }

/-- Configuration with the retention policy disabled. -/
def exCfgOff : Config :=
  { ENABLE_RETENTION_POLICY := false, RETENTION_PERIOD_MONTHS := 6 }

/-- Injected fault: the database raises during view creation only. -/
def exFaultsViews : Faults :=
  { setup := false, load := false, dq := false, views := true, keep := false }

/-- A permanent row whose event time is strictly older than the sample cutoff
(instant 3 against cutoff 10 - 6 = 4 under `exTm`). -/
def exOldRow : PermRow :=
  { customer_id := some "1", event_start_time := some "abc", event_type := some "voice",
    rate_plan_id := some "2", billing_flag_one := some "0", billing_flag_two := some "0",
    duration := some "1.0", charge := some "1.00000000", month := some "2020-01",
    event_uuid := "u-old" }

/-- A permanent row whose event time lands exactly on the sample cutoff. -/
def exBoundaryRow : PermRow :=
  { customer_id := some "2", event_start_time := some "abcd", event_type := some "sms",
    rate_plan_id := some "3", billing_flag_one := some "0", billing_flag_two := some "0",
    duration := some "1.0", charge := some "2.00000000", month := some "2020-02",
    event_uuid := "u-bnd" }

/-- A store holding the two sample rows, for the retention witness. -/
def exRetDB : DB :=
  { tableExists := true, telco_billings_usage := [exOldRow, exBoundaryRow],
    funcExists := true, indexes := NON_PK_INDEXES_TO_CREATE, views := [] }

/-- The permanent store already holding the row `exRow` would load, with its
identity computed by the identity digest. -/
def exPreloadedStore : DB :=
  { tableExists := true,
    telco_billings_usage :=
      [permRowOf (rawToStaged exRow) "7_2024-01-01 00:00:00+00_voice_3_1.50000000"],
    funcExists := true, indexes := NON_PK_INDEXES_TO_CREATE, views := [] }

/-- A file with two distinct business tuples, one of them repeated. -/
def exDupFile : List RawRow := [exRow, exRow2, exRow]

lemma parseAccepted_filter (file : List RawRow) :
    parseAccepted (file.filter (fun r => decide (r.length = EXPECTED_CSV_COLUMNS)))
      = parseAccepted file := by
  unfold parseAccepted
  rw [List.filter_filter]
  simp

lemma parseAccepted_nil_of_all_malformed (file : List RawRow)
    (h : ∀ r ∈ file, r.length ≠ EXPECTED_CSV_COLUMNS) : parseAccepted file = [] := by
  unfold parseAccepted
  have hf : file.filter (fun r => decide (r.length = EXPECTED_CSV_COLUMNS)) = [] := by
    rw [List.filter_eq_nil_iff]
    intro a ha
    simpa using h a ha
  rw [hf]
  rfl

/-- C2: with any of the five business fields NULL, the identity function is
claimed to still succeed with the field rendered as the empty-string
component.  The deployed function is declared STRICT, so it returns NULL
without running its body; the body itself (second conjunct) would indeed have
hashed the empty-component string, which is what the COALESCE defaults were
written for.  This refutes the claim against the code and shows the slip. -/
theorem claim_C2_strict_null_identity (md5 : String → String) :
    generate_event_uuid md5 none (some "2024-01-01 00:00:00+00") (some "voice")
        (some "3") (some "1.50000000") = none
    ∧ generate_event_uuid_body md5 none (some "2024-01-01 00:00:00+00") (some "voice")
        (some "3") (some "1.50000000")
      = md5 "_2024-01-01 00:00:00+00_voice_3_1.50000000" :=
  ⟨rfl, rfl⟩

/-- C9: a load in which every CSV row is rejected by the column-count filter
(which covers the empty file) returns 0 and leaves the database — rows and
indexes alike — unchanged: the short-circuit fires before the index-drop and
merge steps. -/
theorem claim_C9_zero_accepted_short_circuit (md5 : String → String)
    (file : List RawRow) (db : DB)
    (h : ∀ r ∈ file, r.length ≠ EXPECTED_CSV_COLUMNS) :
    load_telco_data md5 file db = .ok (db, 0) := by
  have hp : parseAccepted file = [] := parseAccepted_nil_of_all_malformed file h
  unfold load_telco_data
  rw [hp]
  rfl

/-- Witness for C9 at a concrete malformed-only file. -/
theorem claim_C9_witness :
    (∀ r ∈ [exShortRow, exEightColRow], r.length ≠ EXPECTED_CSV_COLUMNS)
    ∧ load_telco_data id [exShortRow, exEightColRow] exStore = .ok (exStore, 0) :=
  ⟨by decide, claim_C9_zero_accepted_short_circuit id [exShortRow, exEightColRow] exStore
    (by decide)⟩

/-- C6: rows of the wrong column count are skipped and nothing else changes:
loading any file is exactly loading its well-formed rows, so a malformed row
can neither abort the load nor alter its outcome; the accepted rows are
precisely the rows with the expected column count, in order. -/
theorem claim_C6_malformed_rows_skipped (md5 : String → String) (file : List RawRow)
    (db : DB) :
    load_telco_data md5 file db
      = load_telco_data md5 (file.filter (fun r => decide (r.length = EXPECTED_CSV_COLUMNS))) db
    ∧ parseAccepted file
      = (file.filter (fun r => decide (r.length = EXPECTED_CSV_COLUMNS))).map rawToStaged := by
  constructor
  · unfold load_telco_data
    rw [parseAccepted_filter]
  · rfl

/-- C7: the data quality checker returns `(False, [single issue with the
exception text])` whenever either query interaction raises, and `(True, [])`
when nothing raises and neither check finds an anomaly, including the
defensive no-result-row case; the checker is a total function, so no
exception ever propagates past it. -/
theorem claim_C7_dq_exception_containment :
    (∀ msg q_future, run_data_quality_checks (.raise msg) q_future
        = (false, ["DQ Exception: " ++ msg]))
    ∧ (∀ res msg, run_data_quality_checks (.ok res) (.raise msg)
        = (false, ["DQ Exception: " ++ msg]))
    ∧ (∀ (res : Option MissingRes) (fres : Option (Option Int)),
        (∀ m, res = some m →
          ¬(m.total_rows_checked.getD 0 > 0 ∧
            (m.missing_customer_id.getD 0 > 0 ∨ m.missing_time.getD 0 > 0 ∨
             m.missing_event_type.getD 0 > 0))) →
        (∀ c, fres = some c → ¬ c.getD 0 > 0) →
        run_data_quality_checks (.ok res) (.ok fres) = (true, [])) := by
  refine ⟨fun msg q_future => rfl, fun res msg => rfl, fun res fres h1 h2 => ?_⟩
  cases res with
  | none =>
    cases fres with
    | none => rfl
    | some c =>
      have hc := h2 c rfl
      simp [run_data_quality_checks, hc]
  | some m =>
    have hm := h1 m rfl
    cases fres with
    | none => simp [run_data_quality_checks, hm]
    | some c =>
      have hc := h2 c rfl
      simp [run_data_quality_checks, hm, hc]

/-- Witness for C7: a raised exception is contained, and a clean post-load
result (empty recent window, no future rows) yields `(True, [])`. -/
theorem claim_C7_witness :
    run_data_quality_checks (.raise "connection reset") (.ok none)
      = (false, ["DQ Exception: connection reset"])
    ∧ run_data_quality_checks (.ok (some ⟨none, none, none, some 0⟩)) (.ok (some (some 0)))
      = (true, []) :=
  ⟨claim_C7_dq_exception_containment.1 "connection reset" (.ok none),
   claim_C7_dq_exception_containment.2.2 (some ⟨none, none, none, some 0⟩) (some (some 0))
     (by intro m hm; cases hm; decide) (by intro c hc; cases hc; decide)⟩

/-- C8: with the policy disabled the retention enforcer issues no statement
and leaves the store unchanged; enabled with period M it issues the single
DELETE built by `get_sql_delete_old_data` and keeps exactly the rows that are
not strictly older than the M-month cutoff, so a row whose event time equals
the cutoff survives. -/
theorem claim_C8_retention (tm : TimeModel) (months : Nat) (db : DB) :
    apply_pipeline_data_retention false months tm db = (db, [])
    ∧ (apply_pipeline_data_retention true months tm db).2
        = [get_sql_delete_old_data months]
    ∧ (∀ r : PermRow,
        r ∈ (apply_pipeline_data_retention true months tm db).1.telco_billings_usage ↔
          (r ∈ db.telco_billings_usage ∧
           ¬ ∃ ts, r.event_start_time = some ts ∧
              tm.toInstant ts < tm.subMonths tm.now months))
    ∧ (∀ r ∈ db.telco_billings_usage, ∀ ts, r.event_start_time = some ts →
        tm.toInstant ts = tm.subMonths tm.now months →
        r ∈ (apply_pipeline_data_retention true months tm db).1.telco_billings_usage) := by
  have hmem : ∀ r : PermRow,
      r ∈ (apply_pipeline_data_retention true months tm db).1.telco_billings_usage ↔
        (r ∈ db.telco_billings_usage ∧
         ¬ ∃ ts, r.event_start_time = some ts ∧
            tm.toInstant ts < tm.subMonths tm.now months) := by
    intro r
    have hrw : (apply_pipeline_data_retention true months tm db).1.telco_billings_usage
        = db.telco_billings_usage.filter (fun x => !rowStrictlyOlder tm months x) := by
      simp [apply_pipeline_data_retention]
    rw [hrw, List.mem_filter]
    constructor
    · rintro ⟨hr, hb⟩
      refine ⟨hr, ?_⟩
      rintro ⟨ts, hts, hlt⟩
      rw [Bool.not_eq_true'] at hb
      unfold rowStrictlyOlder at hb
      rw [hts] at hb
      simp [hlt] at hb
    · rintro ⟨hr, hb⟩
      refine ⟨hr, ?_⟩
      rw [Bool.not_eq_true']
      unfold rowStrictlyOlder
      cases hts : r.event_start_time with
      | none => rfl
      | some ts =>
        have : ¬ tm.toInstant ts < tm.subMonths tm.now months := by
          intro hlt
          exact hb ⟨ts, hts, hlt⟩
        simp [this]
  refine ⟨by simp [apply_pipeline_data_retention], by simp [apply_pipeline_data_retention],
    hmem, ?_⟩
  intro r hr ts hts heq
  rw [hmem r]
  refine ⟨hr, ?_⟩
  rintro ⟨ts2, hts2, hlt⟩
  rw [hts] at hts2
  cases hts2
  rw [heq] at hlt
  exact lt_irrefl _ hlt

/-- Witness for C8 at the sample store: the old row is deleted, the
boundary-equal row survives, and the disabled policy is the identity with no
statement issued. -/
theorem claim_C8_witness :
    apply_pipeline_data_retention false 6 exTm exRetDB = (exRetDB, [])
    ∧ exBoundaryRow ∈
        (apply_pipeline_data_retention true 6 exTm exRetDB).1.telco_billings_usage
    ∧ (exOldRow ∈
        (apply_pipeline_data_retention true 6 exTm exRetDB).1.telco_billings_usage ↔
        (exOldRow ∈ exRetDB.telco_billings_usage ∧
         ¬ ∃ ts, exOldRow.event_start_time = some ts ∧
            exTm.toInstant ts < exTm.subMonths exTm.now 6)) :=
  ⟨(claim_C8_retention exTm 6 exRetDB).1,
   (claim_C8_retention exTm 6 exRetDB).2.2.2 exBoundaryRow (by decide) "abcd" rfl (by decide),
   (claim_C8_retention exTm 6 exRetDB).2.2.1 exOldRow⟩

/-- C10: the missing-event-time count of the missing-values check is always
zero — the 24-hour window predicate excludes every NULL event time — so the
missing-values check can only flag on the customer-id or event-type counts. -/
theorem claim_C10_missing_time_never_flags (tm : TimeModel) (db : DB) :
    (SQL_CHECK_MISSING_VALUES tm db).missing_time.getD 0 = 0
    ∧ (((SQL_CHECK_MISSING_VALUES tm db).total_rows_checked.getD 0 > 0 ∧
         ((SQL_CHECK_MISSING_VALUES tm db).missing_customer_id.getD 0 > 0 ∨
          (SQL_CHECK_MISSING_VALUES tm db).missing_time.getD 0 > 0 ∨
          (SQL_CHECK_MISSING_VALUES tm db).missing_event_type.getD 0 > 0)) ↔
        ((SQL_CHECK_MISSING_VALUES tm db).total_rows_checked.getD 0 > 0 ∧
         ((SQL_CHECK_MISSING_VALUES tm db).missing_customer_id.getD 0 > 0 ∨
          (SQL_CHECK_MISSING_VALUES tm db).missing_event_type.getD 0 > 0))) := by
  have hz : (SQL_CHECK_MISSING_VALUES tm db).missing_time.getD 0 = 0 := by
    have hrec : (SQL_CHECK_MISSING_VALUES tm db).missing_time
        = sqlSumNullIndicator
            (db.telco_billings_usage.filter (fun r => timeWithinLastDay tm r.event_start_time))
            (fun r => r.event_start_time) := rfl
    rw [hrec]
    cases hc : db.telco_billings_usage.filter
        (fun r => timeWithinLastDay tm r.event_start_time) with
    | nil => simp [sqlSumNullIndicator]
    | cons a l =>
      simp only [sqlSumNullIndicator]
      have hnil : (a :: l).filter (fun r => (r.event_start_time).isNone) = [] := by
        rw [List.filter_eq_nil_iff]
        intro r hr
        have hr2 : r ∈ db.telco_billings_usage.filter
            (fun r => timeWithinLastDay tm r.event_start_time) := by
          rw [hc]; exact hr
        have hp := List.of_mem_filter hr2
        cases hts : r.event_start_time with
        | none => rw [hts] at hp; simp [timeWithinLastDay] at hp
        | some ts => simp [hts]
      rw [hnil]
      simp
  refine ⟨hz, ?_⟩
  rw [hz]
  simp

lemma checkCsvRows_ok_iff (e : Nat) (rows : List RawRow) (i : Nat) :
    checkCsvRows e i rows = .ok true ↔
      ∀ j, j < rows.length → i + j < 5 → (rows.getD j []).length = e := by
  induction rows generalizing i with
  | nil => simp [checkCsvRows]
  | cons r rest ih =>
    by_cases h5 : i ≥ 5
    · constructor
      · intro _ j _ hlt
        exact absurd hlt (by omega)
      · intro _
        simp [checkCsvRows, h5]
    · by_cases hr : r.length = e
      · have hstep : checkCsvRows e i (r :: rest) = checkCsvRows e (i + 1) rest := by
          simp [checkCsvRows, h5, hr]
        rw [hstep, ih (i + 1)]
        constructor
        · intro hrest j hj hlt
          cases j with
          | zero => simpa using hr
          | succ m =>
            have := hrest m (by simpa using hj) (by omega)
            simpa using this
        · intro hall j hj hlt
          have := hall (j + 1) (by simpa using hj) (by omega)
          simpa using this
      · have hstep : checkCsvRows e i (r :: rest)
            = .error (.valueError (i + 1) e r.length) := by
          simp [checkCsvRows, h5, hr]
        rw [hstep]
        constructor
        · intro hcontra
          exact absurd hcontra (by simp)
        · intro hall
          have := hall 0 (by simp) (by omega)
          simp at this
          exact absurd this hr

lemma checkCsvRows_error_first (e : Nat) (rows : List RawRow) (i j : Nat)
    (hj : j < rows.length) (h5 : i + j < 5)
    (hfirst : ∀ k, k < j → (rows.getD k []).length = e)
    (hbad : (rows.getD j []).length ≠ e) :
    checkCsvRows e i rows
      = .error (.valueError (i + j + 1) e (rows.getD j []).length) := by
  induction rows generalizing i j with
  | nil => exact absurd hj (by simp)
  | cons r rest ih =>
    have hi5 : ¬ i ≥ 5 := by omega
    cases j with
    | zero =>
      have hbad0 : r.length ≠ e := by simpa using hbad
      simp [checkCsvRows, hi5, hbad0]
    | succ m =>
      have hr : r.length = e := by simpa using hfirst 0 (by omega)
      have hstep : checkCsvRows e i (r :: rest) = checkCsvRows e (i + 1) rest := by
        simp [checkCsvRows, hi5, hr]
      rw [hstep]
      have hres := ih (i + 1) m (by simpa using hj) (by omega)
        (fun k hk => by simpa using hfirst (k + 1) (by omega))
        (by simpa using hbad)
      rw [hres]
      have harith : i + 1 + m + 1 = i + (m + 1) + 1 := by omega
      rw [harith]
      simp

/-- C5: the validator rejects a nonexistent path with the
`FileNotFoundError`-kind error; an existing file passes exactly when each of
the first five rows has the expected column count; and the first of the
inspected rows whose count differs produces the `ValueError`-kind error
carrying that 1-based row index together with the expected and found counts,
with no later row inspected. -/
theorem claim_C5_validator_first_mismatch (rows : List RawRow) :
    validate_csv_structure none = .error .fileNotFound
    ∧ (validate_csv_structure (some rows) = .ok true ↔
        ∀ j, j < rows.length → j < 5 → (rows.getD j []).length = EXPECTED_CSV_COLUMNS)
    ∧ (∀ j, j < rows.length → j < 5 →
        (∀ k, k < j → (rows.getD k []).length = EXPECTED_CSV_COLUMNS) →
        (rows.getD j []).length ≠ EXPECTED_CSV_COLUMNS →
        validate_csv_structure (some rows)
          = .error (.valueError (j + 1) EXPECTED_CSV_COLUMNS (rows.getD j []).length)) := by
  refine ⟨rfl, ?_, ?_⟩
  · have := checkCsvRows_ok_iff EXPECTED_CSV_COLUMNS rows 0
    simpa [validate_csv_structure] using this
  · intro j hj h5 hfirst hbad
    have := checkCsvRows_error_first EXPECTED_CSV_COLUMNS rows 0 j hj (by omega) hfirst hbad
    simpa [validate_csv_structure] using this

/-- Witness for C5: the missing file, a clean two-row file, and a file whose
second row has 8 columns where 9 are expected, rejected at row index 2. -/
theorem claim_C5_witness :
    validate_csv_structure none = .error .fileNotFound
    ∧ validate_csv_structure (some [exRow, exRow2]) = .ok true
    ∧ validate_csv_structure (some [exRow, exEightColRow])
        = .error (.valueError 2 9 8) :=
  ⟨(claim_C5_validator_first_mismatch []).1,
   (claim_C5_validator_first_mismatch [exRow, exRow2]).2.1.mpr (by decide),
   (claim_C5_validator_first_mismatch [exRow, exEightColRow]).2.2 1 (by decide) (by decide)
     (by decide) (by decide)⟩

lemma load_ok_cases (md5 : String → String) (file : List RawRow) (db db' : DB) (n : Int)
    (hok : load_telco_data md5 file db = .ok (db', n)) :
    (parseAccepted file = [] ∧ db' = db ∧ n = 0)
    ∨ (parseAccepted file ≠ [] ∧
       ∃ tbl m, mergeRows md5 (parseAccepted file) (dropNonPkIndexes db).telco_billings_usage
          = some (tbl, m)
        ∧ db' = recreateNonPkIndexes { dropNonPkIndexes db with telco_billings_usage := tbl }
        ∧ n = (m : Int)) := by
  unfold load_telco_data at hok
  split at hok
  · left
    simp only [Except.ok.injEq, Prod.mk.injEq] at hok
    refine ⟨List.length_eq_zero.mp (by assumption), hok.1.symm, hok.2.symm⟩
  · split at hok
    · exact absurd hok (by simp)
    · right
      refine ⟨fun hnil => by simp [hnil] at *, ?_⟩
      split at hok
      · exact absurd hok (by simp)
      · rename_i tbl m hm
        simp only [Except.ok.injEq, Prod.mk.injEq] at hok
        exact ⟨tbl, m, hm, hok.1.symm, hok.2.symm⟩

lemma pair_mem_recreate_iff (db : DB) (p : String × String)
    (hnodup : (db.indexes.map Prod.fst).Nodup)
    (hbefore : ∀ q ∈ NON_PK_INDEXES_TO_RECREATE, q ∈ db.indexes) :
    (p ∈ (dropNonPkIndexes db).indexes ++ NON_PK_INDEXES_TO_RECREATE ↔ p ∈ db.indexes) := by
  unfold dropNonPkIndexes
  simp only [List.mem_append, List.mem_filter, decide_eq_true_eq]
  constructor
  · rintro (⟨hp, _⟩ | hp)
    · exact hp
    · exact hbefore p hp
  · intro hp
    by_cases hname : p.1 ∈ nonPkIndexNames
    · right
      have : ∃ q ∈ NON_PK_INDEXES_TO_CREATE, q.1 = p.1 := by
        unfold nonPkIndexNames at hname
        obtain ⟨q, hq, hq1⟩ := List.mem_map.mp hname
        exact ⟨q, hq, hq1⟩
      obtain ⟨q, hq, hq1⟩ := this
      have hqmem : q ∈ db.indexes := hbefore q hq
      have : q = p :=
        List.inj_on_of_nodup_map hnodup hqmem hp hq1
      rw [← this]
      exact hq
    · exact Or.inl ⟨hp, hname⟩

/-- C4: after any successful load the four secondary indexes exist and, given
that they all existed before the load began (the state `setup` establishes)
and that index names are unique, the index set is exactly what it was before
the load — even when the merge inserted zero new rows, because the recreate
statements run unconditionally after the merge.  The create and recreate
dictionaries agree on names and indexed columns. -/
theorem claim_C4_indexes_restored (md5 : String → String) (file : List RawRow)
    (db db' : DB) (n : Int)
    (hnodup : (db.indexes.map Prod.fst).Nodup)
    (hbefore : ∀ q ∈ NON_PK_INDEXES_TO_RECREATE, q ∈ db.indexes)
    (hok : load_telco_data md5 file db = .ok (db', n)) :
    NON_PK_INDEXES_TO_CREATE = NON_PK_INDEXES_TO_RECREATE
    ∧ (∀ q ∈ NON_PK_INDEXES_TO_RECREATE, q ∈ db'.indexes)
    ∧ (∀ p : String × String, p ∈ db'.indexes ↔ p ∈ db.indexes) := by
  rcases load_ok_cases md5 file db db' n hok with ⟨_, hdb, _⟩ | ⟨_, tbl, m, _, hdb, _⟩
  · subst hdb
    exact ⟨rfl, hbefore, fun p => Iff.rfl⟩
  · have hix : db'.indexes = (dropNonPkIndexes db).indexes ++ NON_PK_INDEXES_TO_RECREATE := by
      rw [hdb]; rfl
    refine ⟨rfl, ?_, ?_⟩
    · intro q hq
      rw [hix]
      exact List.mem_append.mpr (Or.inr hq)
    · intro p
      rw [hix]
      exact pair_mem_recreate_iff db p hnodup hbefore

/-- Witness for C4: loading a file whose single row is already present
inserts zero rows yet leaves the index set identical. -/
theorem claim_C4_witness :
    ((exPreloadedStore.indexes.map Prod.fst).Nodup
      ∧ (∀ q ∈ NON_PK_INDEXES_TO_RECREATE, q ∈ exPreloadedStore.indexes)
      ∧ load_telco_data id [exRow] exPreloadedStore = .ok (exPreloadedStore, 0))
    ∧ (NON_PK_INDEXES_TO_CREATE = NON_PK_INDEXES_TO_RECREATE
       ∧ (∀ q ∈ NON_PK_INDEXES_TO_RECREATE, q ∈ exPreloadedStore.indexes)
       ∧ (∀ p : String × String, p ∈ exPreloadedStore.indexes ↔ p ∈ exPreloadedStore.indexes)) :=
  ⟨⟨by decide, by decide, by rfl⟩,
   claim_C4_indexes_restored id [exRow] exPreloadedStore exPreloadedStore 0
     (by decide) (by decide) (by rfl)⟩

lemma stagedUuid_isSome_of_fields (md5 : String → String) (s : StagedRow)
    (h : s.customer_id.isSome ∧ s.event_start_time.isSome ∧ s.event_type.isSome ∧
      s.rate_plan_id.isSome ∧ s.charge.isSome) :
    (stagedUuid md5 s).isSome := by
  obtain ⟨h1, h2, h3, h4, h5⟩ := h
  obtain ⟨a, ha⟩ := Option.isSome_iff_exists.mp h1
  obtain ⟨b, hb⟩ := Option.isSome_iff_exists.mp h2
  obtain ⟨c, hc⟩ := Option.isSome_iff_exists.mp h3
  obtain ⟨d, hd⟩ := Option.isSome_iff_exists.mp h4
  obtain ⟨e, he⟩ := Option.isSome_iff_exists.mp h5
  simp [stagedUuid, generate_event_uuid, ha, hb, hc, hd, he]

lemma stagedUuid_congr (md5 : String → String) (s s2 : StagedRow)
    (h : businessTuple s = businessTuple s2) :
    stagedUuid md5 s = stagedUuid md5 s2 := by
  unfold businessTuple at h
  simp only [Prod.mk.injEq] at h
  obtain ⟨h1, h2, h3, h4, h5⟩ := h
  unfold stagedUuid
  rw [h1, h2, h3, h4, h5]

lemma mergeRows_eq_newRows (md5 : String → String) (staged : List StagedRow)
    (tbl : List PermRow) (h : ∀ s ∈ staged, (stagedUuid md5 s).isSome) :
    mergeRows md5 staged tbl =
      some (tbl ++ mergeNewRows md5 staged (tableUuids tbl),
            (mergeNewRows md5 staged (tableUuids tbl)).length) := by
  induction staged generalizing tbl with
  | nil => simp [mergeRows, mergeNewRows]
  | cons s rest ih =>
    obtain ⟨u, hu⟩ := Option.isSome_iff_exists.mp (h s (List.mem_cons_self s rest))
    have hrest : ∀ x ∈ rest, (stagedUuid md5 x).isSome :=
      fun x hx => h x (List.mem_cons_of_mem s hx)
    by_cases hm : u ∈ tableUuids tbl
    · simp [mergeRows, mergeNewRows, hu, hm, ih tbl hrest]
    · have htu : tableUuids (tbl ++ [permRowOf s u]) = tableUuids tbl ++ [u] := by
        simp [tableUuids, permRowOf]
      simp only [mergeRows, mergeNewRows, hu, if_neg hm, ih (tbl ++ [permRowOf s u]) hrest,
        htu, List.length_cons]
      rw [List.append_assoc]
      rfl

lemma mergeNewRows_provenance (md5 : String → String) (staged : List StagedRow)
    (seen : List String) :
    ∀ p ∈ mergeNewRows md5 staged seen,
      ∃ s, s ∈ staged ∧ stagedUuid md5 s = some p.event_uuid ∧
        permBusinessTuple p = businessTuple s := by
  induction staged generalizing seen with
  | nil => intro p hp; simp [mergeNewRows] at hp
  | cons s rest ih =>
    intro p hp
    cases hu : stagedUuid md5 s with
    | none => simp [mergeNewRows, hu] at hp
    | some u =>
      by_cases hm : u ∈ seen
      · simp only [mergeNewRows, hu, if_pos hm] at hp
        obtain ⟨s2, h1, h2, h3⟩ := ih seen p hp
        exact ⟨s2, List.mem_cons_of_mem s h1, h2, h3⟩
      · simp only [mergeNewRows, hu, if_neg hm, List.mem_cons] at hp
        cases hp with
        | inl hpe =>
          refine ⟨s, List.mem_cons_self s rest, ?_, ?_⟩
          · rw [hpe]; exact hu
          · rw [hpe]; rfl
        | inr hp2 =>
          obtain ⟨s2, h1, h2, h3⟩ := ih (seen ++ [u]) p hp2
          exact ⟨s2, List.mem_cons_of_mem s h1, h2, h3⟩

lemma mergeNewRows_fresh_nodup (md5 : String → String) (staged : List StagedRow)
    (seen : List String) :
    (∀ u ∈ (mergeNewRows md5 staged seen).map PermRow.event_uuid, u ∉ seen)
    ∧ ((mergeNewRows md5 staged seen).map PermRow.event_uuid).Nodup := by
  induction staged generalizing seen with
  | nil => simp [mergeNewRows]
  | cons s rest ih =>
    cases hu : stagedUuid md5 s with
    | none => simp [mergeNewRows, hu]
    | some u =>
      by_cases hm : u ∈ seen
      · simp only [mergeNewRows, hu, if_pos hm]
        exact ih seen
      · simp only [mergeNewRows, hu, if_neg hm, List.map_cons]
        obtain ⟨fresh2, nodup2⟩ := ih (seen ++ [u])
        constructor
        · intro v hv
          rcases List.mem_cons.mp hv with hve | hv2
          · rw [hve]; exact hm
          · intro hvseen
            exact (fresh2 v hv2) (List.mem_append.mpr (Or.inl hvseen))
        · rw [List.nodup_cons]
          refine ⟨?_, nodup2⟩
          intro hmem
          exact (fresh2 _ hmem) (List.mem_append.mpr (Or.inr (by simp [permRowOf])))

lemma mergeNewRows_coverage (md5 : String → String) (staged : List StagedRow)
    (seen : List String) (h : ∀ s ∈ staged, (stagedUuid md5 s).isSome) :
    ∀ s ∈ staged, ∀ u, stagedUuid md5 s = some u →
      u ∈ seen ∨ u ∈ (mergeNewRows md5 staged seen).map PermRow.event_uuid := by
  induction staged generalizing seen with
  | nil => intro s hs; simp at hs
  | cons s0 rest ih =>
    obtain ⟨u0, hu0⟩ := Option.isSome_iff_exists.mp (h s0 (List.mem_cons_self s0 rest))
    have hrest : ∀ x ∈ rest, (stagedUuid md5 x).isSome :=
      fun x hx => h x (List.mem_cons_of_mem s0 hx)
    intro s hs u hu
    by_cases hm : u0 ∈ seen
    · simp only [mergeNewRows, hu0, if_pos hm]
      rcases List.mem_cons.mp hs with hse | hs2
      · left
        rw [hse, hu0] at hu
        injection hu with huu
        rw [← huu]; exact hm
      · exact ih seen hrest s hs2 u hu
    · simp only [mergeNewRows, hu0, if_neg hm, List.map_cons]
      rcases List.mem_cons.mp hs with hse | hs2
      · right
        rw [hse, hu0] at hu
        injection hu with huu
        rw [← huu]
        exact List.mem_cons_self _ _
      · rcases ih (seen ++ [u0]) hrest s hs2 u hu with hin | hin
        · rcases List.mem_append.mp hin with h1 | h1
          · exact Or.inl h1
          · right
            simp only [List.mem_singleton] at h1
            rw [h1]
            exact List.mem_cons_self _ _
        · right
          exact List.mem_cons_of_mem _ hin

lemma mergeNewRows_nil_of_seen (md5 : String → String) (staged : List StagedRow)
    (seen : List String)
    (h : ∀ s ∈ staged, ∀ u, stagedUuid md5 s = some u → u ∈ seen) :
    mergeNewRows md5 staged seen = [] := by
  induction staged with
  | nil => rfl
  | cons s rest ih =>
    cases hu : stagedUuid md5 s with
    | none => simp [mergeNewRows, hu]
    | some u =>
      have hm : u ∈ seen := h s (List.mem_cons_self s rest) u hu
      simp only [mergeNewRows, hu, if_pos hm]
      exact ih (fun x hx v hv => h x (List.mem_cons_of_mem s hx) v hv)

lemma mergeNewRows_length_card (md5 : String → String) (staged : List StagedRow)
    (seen : List String) (h : ∀ s ∈ staged, (stagedUuid md5 s).isSome) :
    (mergeNewRows md5 staged seen).length
      = ((staged.map (fun s => (stagedUuid md5 s).getD "")).toFinset \ seen.toFinset).card := by
  induction staged generalizing seen with
  | nil => simp [mergeNewRows]
  | cons s rest ih =>
    obtain ⟨u, hu⟩ := Option.isSome_iff_exists.mp (h s (List.mem_cons_self s rest))
    have hrest : ∀ x ∈ rest, (stagedUuid md5 x).isSome :=
      fun x hx => h x (List.mem_cons_of_mem s hx)
    by_cases hm : u ∈ seen
    · simp only [mergeNewRows, hu, if_pos hm, List.map_cons, List.toFinset_cons,
        Option.getD_some]
      rw [ih seen hrest, Finset.insert_sdiff_of_mem _ (List.mem_toFinset.mpr hm)]
    · simp only [mergeNewRows, hu, if_neg hm, List.map_cons, List.toFinset_cons,
        Option.getD_some, List.length_cons]
      rw [ih (seen ++ [u]) hrest]
      have hsplit : insert u ((rest.map (fun s => (stagedUuid md5 s).getD "")).toFinset)
            \ seen.toFinset
          = insert u ((rest.map (fun s => (stagedUuid md5 s).getD "")).toFinset
              \ (seen ++ [u]).toFinset) := by
        ext x
        by_cases hx : x = u
        · simp [hx, hm]
        · simp [hx, Finset.mem_sdiff]
      rw [hsplit, Finset.card_insert_of_not_mem (by simp)]

lemma uuid_card_eq_tuple_card (md5 : String → String) (staged : List StagedRow)
    (hsome : ∀ s ∈ staged, (stagedUuid md5 s).isSome)
    (hinj : ∀ s ∈ staged, ∀ s2 ∈ staged,
      stagedUuid md5 s = stagedUuid md5 s2 → businessTuple s = businessTuple s2) :
    (staged.map (fun s => (stagedUuid md5 s).getD "")).toFinset.card
      = (staged.map businessTuple).toFinset.card := by
  have himg : ∀ {β : Type} [inst : DecidableEq β] (f : StagedRow → β),
      (staged.map f).toFinset = staged.toFinset.image f := by
    intro β inst f
    ext x
    simp
  rw [himg (fun s => (stagedUuid md5 s).getD ""), himg businessTuple]
  have hfac : (fun s => (stagedUuid md5 s).getD "")
      = (tupleUuidStr md5) ∘ businessTuple := rfl
  rw [hfac, ← Finset.image_image]
  rw [Finset.card_image_of_injOn]
  intro t1 ht1 t2 ht2 heq
  obtain ⟨s1, hs1, hbt1⟩ := Finset.mem_image.mp ht1
  obtain ⟨s2, hs2, hbt2⟩ := Finset.mem_image.mp ht2
  have hs1m : s1 ∈ staged := List.mem_toFinset.mp hs1
  have hs2m : s2 ∈ staged := List.mem_toFinset.mp hs2
  subst hbt1
  subst hbt2
  have heq2 : (stagedUuid md5 s1).getD "" = (stagedUuid md5 s2).getD "" := heq
  obtain ⟨u1, hu1⟩ := Option.isSome_iff_exists.mp (hsome s1 hs1m)
  obtain ⟨u2, hu2⟩ := Option.isSome_iff_exists.mp (hsome s2 hs2m)
  rw [hu1, hu2] at heq2
  simp only [Option.getD_some] at heq2
  have huuid : stagedUuid md5 s1 = stagedUuid md5 s2 := by rw [hu1, hu2, heq2]
  exact hinj s1 hs1m s2 hs2m huuid

lemma length_filter_uuid_eq_one (l : List PermRow) (u : String)
    (hnd : (l.map PermRow.event_uuid).Nodup) (hmem : u ∈ l.map PermRow.event_uuid) :
    (l.filter (fun p => decide (p.event_uuid = u))).length = 1 := by
  induction l with
  | nil => simp at hmem
  | cons p rest ih =>
    rw [List.map_cons, List.nodup_cons] at hnd
    obtain ⟨hnp, hnr⟩ := hnd
    by_cases hpu : p.event_uuid = u
    · have hnil : rest.filter (fun x => decide (x.event_uuid = u)) = [] := by
        rw [List.filter_eq_nil_iff]
        intro x hx
        simp only [decide_eq_true_eq]
        intro hxe
        exact hnp (by rw [hpu, ← hxe]; exact List.mem_map_of_mem PermRow.event_uuid hx)
      rw [List.filter_cons]
      simp [hpu, hnil]
    · have hmem2 : u ∈ rest.map PermRow.event_uuid := by
        rcases List.mem_cons.mp hmem with h1 | h1
        · exact absurd h1.symm hpu
        · exact h1
      rw [List.filter_cons]
      simp only [decide_eq_true_eq, hpu, if_false]
      exact ih hnr hmem2

lemma DB_eq_of_fields (a b : DB) (h1 : a.tableExists = b.tableExists)
    (h2 : a.telco_billings_usage = b.telco_billings_usage)
    (h3 : a.funcExists = b.funcExists) (h4 : a.indexes = b.indexes)
    (h5 : a.views = b.views) : a = b := by
  cases a
  cases b
  simp_all

lemma drop_indexes_stable (ixs : List (String × String)) :
    ((ixs.filter (fun p => decide (p.1 ∉ nonPkIndexNames)) ++ NON_PK_INDEXES_TO_RECREATE).filter
        (fun p => decide (p.1 ∉ nonPkIndexNames)))
      = ixs.filter (fun p => decide (p.1 ∉ nonPkIndexNames)) := by
  rw [List.filter_append]
  have h1 : NON_PK_INDEXES_TO_RECREATE.filter (fun p => decide (p.1 ∉ nonPkIndexNames)) = [] := by
    decide
  have h2 : (ixs.filter (fun p => decide (p.1 ∉ nonPkIndexNames))).filter
      (fun p => decide (p.1 ∉ nonPkIndexNames)) = ixs.filter (fun p => decide (p.1 ∉ nonPkIndexNames)) := by
    rw [List.filter_filter]
    simp
  rw [h1, h2, List.append_nil]

/-- C3 counterexample: a file whose single row carries exactly one business
5-tuple (with a NULL customer id) does not insert one row into the empty
store — the STRICT identity function yields a NULL primary key and the merge
aborts with a not-null violation, so the claim fails as stated for rows with
absent business fields. -/
theorem claim_C3_counterexample :
    ((parseAccepted [exNullCidRow]).map businessTuple).toFinset.card = 1
    ∧ load_telco_data id [exNullCidRow] exStore
        = .error "not-null constraint violation on event_uuid" :=
  ⟨by decide, by rfl⟩

/-- C3 (amended): for files whose accepted rows have all five business fields
present, and absent digest collisions between distinct tuples of the file,
loading into an empty permanent store inserts exactly the number of distinct
business tuples, each tuple — however often repeated in the file — ends up in
exactly one permanent row, and re-loading the same file inserts zero rows and
leaves the database in exactly the same state (insert-skip, never update). -/
theorem claim_C3_record_level_idempotence (md5 : String → String) (file : List RawRow)
    (db : DB) (htable : db.tableExists = true) (hfunc : db.funcExists = true)
    (hempty : db.telco_billings_usage = [])
    (hfields : ∀ s ∈ parseAccepted file,
      s.customer_id.isSome ∧ s.event_start_time.isSome ∧ s.event_type.isSome ∧
      s.rate_plan_id.isSome ∧ s.charge.isSome)
    (hinj : ∀ s ∈ parseAccepted file, ∀ s2 ∈ parseAccepted file,
      stagedUuid md5 s = stagedUuid md5 s2 → businessTuple s = businessTuple s2)
    (hne : parseAccepted file ≠ []) :
    ∃ db1 : DB,
      load_telco_data md5 file db
        = .ok (db1, (((parseAccepted file).map businessTuple).toFinset.card : Int))
      ∧ db1.telco_billings_usage.length
          = ((parseAccepted file).map businessTuple).toFinset.card
      ∧ (∀ s ∈ parseAccepted file,
          (db1.telco_billings_usage.filter
            (fun p => decide (permBusinessTuple p = businessTuple s))).length = 1)
      ∧ load_telco_data md5 file db1 = .ok (db1, 0) := by
  have hsome : ∀ s ∈ parseAccepted file, (stagedUuid md5 s).isSome :=
    fun s hs => stagedUuid_isSome_of_fields md5 s (hfields s hs)
  set staged := parseAccepted file with hstg
  set newRows := mergeNewRows md5 staged [] with hnew
  have hlen0 : ¬ staged.length = 0 := fun hc => hne (List.length_eq_zero.mp hc)
  have hguard : ¬ (db.tableExists = false ∨ db.funcExists = false) := by
    rw [htable, hfunc]; simp
  have hdroptl : (dropNonPkIndexes db).telco_billings_usage = [] := hempty
  have hmerge1 : mergeRows md5 staged (dropNonPkIndexes db).telco_billings_usage
      = some (newRows, newRows.length) := by
    rw [hdroptl]
    have := mergeRows_eq_newRows md5 staged [] hsome
    simpa [tableUuids] using this
  set db1 := recreateNonPkIndexes
    { dropNonPkIndexes db with telco_billings_usage := newRows } with hdb1
  have hcard : newRows.length = ((staged.map businessTuple).toFinset).card := by
    rw [hnew, mergeNewRows_length_card md5 staged [] hsome]
    simp only [List.toFinset_nil, Finset.sdiff_empty]
    exact uuid_card_eq_tuple_card md5 staged hsome hinj
  have hload1 : load_telco_data md5 file db
      = .ok (db1, (((staged.map businessTuple).toFinset.card : Nat) : Int)) := by
    unfold load_telco_data
    rw [if_neg hlen0, if_neg hguard, hmerge1, hcard]
  have htl1 : db1.telco_billings_usage = newRows := rfl
  refine ⟨db1, hload1, ?_, ?_, ?_⟩
  · rw [htl1, hcard]
  · intro s hs
    obtain ⟨u, hu⟩ := Option.isSome_iff_exists.mp (hsome s hs)
    have humem : u ∈ newRows.map PermRow.event_uuid := by
      rcases mergeNewRows_coverage md5 staged [] hsome s hs u hu with h0 | h0
      · simp at h0
      · exact h0
    have hcong : ∀ p ∈ newRows,
        (decide (permBusinessTuple p = businessTuple s)) = (decide (p.event_uuid = u)) := by
      intro p hp
      obtain ⟨s2, hs2, hu2, hbt2⟩ := mergeNewRows_provenance md5 staged [] p hp
      apply decide_eq_decide.mpr
      constructor
      · intro hbt
        have hbt3 : businessTuple s2 = businessTuple s := by rw [← hbt2, hbt]
        have huuid := stagedUuid_congr md5 s2 s hbt3
        rw [hu2, hu] at huuid
        injection huuid
      · intro hpe
        have huuid : stagedUuid md5 s2 = stagedUuid md5 s := by
          rw [hu2, hpe, hu]
        have hbt := hinj s2 hs2 s hs huuid
        rw [hbt2, hbt]
    rw [htl1, List.filter_congr hcong]
    exact length_filter_uuid_eq_one newRows u (mergeNewRows_fresh_nodup md5 staged []).2 humem
  · have hguard1 : ¬ (db1.tableExists = false ∨ db1.funcExists = false) := by
      have e1 : db1.tableExists = db.tableExists := rfl
      have e2 : db1.funcExists = db.funcExists := rfl
      rw [e1, e2, htable, hfunc]; simp
    have hcover : ∀ s ∈ staged, ∀ u, stagedUuid md5 s = some u → u ∈ tableUuids newRows := by
      intro s hs u hu
      rcases mergeNewRows_coverage md5 staged [] hsome s hs u hu with h0 | h0
      · simp at h0
      · exact h0
    have hmerge2 : mergeRows md5 staged (dropNonPkIndexes db1).telco_billings_usage
        = some (newRows, 0) := by
      have hd1tl : (dropNonPkIndexes db1).telco_billings_usage = newRows := rfl
      rw [hd1tl, mergeRows_eq_newRows md5 staged newRows hsome,
        mergeNewRows_nil_of_seen md5 staged (tableUuids newRows) hcover]
      simp
    have hdbeq : recreateNonPkIndexes
        { dropNonPkIndexes db1 with telco_billings_usage := newRows } = db1 := by
      apply DB_eq_of_fields
      · rfl
      · rfl
      · rfl
      · have hx : (recreateNonPkIndexes
            { dropNonPkIndexes db1 with telco_billings_usage := newRows }).indexes
            = db1.indexes.filter (fun p => decide (p.1 ∉ nonPkIndexNames))
              ++ NON_PK_INDEXES_TO_RECREATE := rfl
        have hy : db1.indexes
            = db.indexes.filter (fun p => decide (p.1 ∉ nonPkIndexNames))
              ++ NON_PK_INDEXES_TO_RECREATE := rfl
        rw [hx, hy, drop_indexes_stable]
      · rfl
    unfold load_telco_data
    rw [if_neg hlen0, if_neg hguard1, hmerge2]
    show Except.ok (recreateNonPkIndexes
      { dropNonPkIndexes db1 with telco_billings_usage := newRows }, ((0 : Nat) : Int))
      = Except.ok (db1, 0)
    rw [hdbeq]
    norm_num

/-- Witness for C3 (amended): a file with two distinct business tuples, one of
them appearing twice, loads 2 rows into an empty store, each tuple once, and
loading the same file again inserts zero rows. -/
theorem claim_C3_witness :
    (parseAccepted exDupFile ≠ []
      ∧ ((parseAccepted exDupFile).map businessTuple).toFinset.card = 2
      ∧ (∀ s ∈ parseAccepted exDupFile,
          s.customer_id.isSome ∧ s.event_start_time.isSome ∧ s.event_type.isSome ∧
          s.rate_plan_id.isSome ∧ s.charge.isSome)
      ∧ (∀ s ∈ parseAccepted exDupFile, ∀ s2 ∈ parseAccepted exDupFile,
          stagedUuid id s = stagedUuid id s2 → businessTuple s = businessTuple s2))
    ∧ (∃ db1 : DB,
        load_telco_data id exDupFile exStore
          = .ok (db1, (((parseAccepted exDupFile).map businessTuple).toFinset.card : Int))
        ∧ db1.telco_billings_usage.length
            = ((parseAccepted exDupFile).map businessTuple).toFinset.card
        ∧ (∀ s ∈ parseAccepted exDupFile,
            (db1.telco_billings_usage.filter
              (fun p => decide (permBusinessTuple p = businessTuple s))).length = 1)
        ∧ load_telco_data id exDupFile db1 = .ok (db1, 0)) :=
  ⟨⟨by decide, by decide, by decide, by decide⟩,
   claim_C3_record_level_idempotence id exDupFile exStore rfl rfl rfl (by decide)
     (by decide) (by decide)⟩

/-- C1 counterexample: a run over an empty database with one good row in
which the database raises during view creation.  The run fails, yet the final
durable state is not the initial state — the loaded row persists (the load
stage committed before the failing stage), refuting whole-run atomicity. -/
theorem claim_C1_counterexample :
    (run_etl_process exFaultsViews id exTm exCfgOff (some [exRow]) emptyDB).1.isOk = false
    ∧ (run_etl_process exFaultsViews id exTm exCfgOff (some [exRow]) emptyDB).2 ≠ emptyDB
    ∧ (run_etl_process exFaultsViews id exTm exCfgOff
        (some [exRow]) emptyDB).2.telco_billings_usage.length = 1 :=
  ⟨by decide, by decide, by decide⟩

/-- C1 (amended): the stages run sequentially on one connection with
autocommit disabled, but each of DDL setup, load, view refresh and retention
commits its own transaction when it completes; a failure in any stage rolls
back only the uncommitted changes of that stage and aborts the run, so the durable
state after any run is exactly the composition of the effects of the stages
completed before the first failure — changes committed by earlier stages
persist even when a later stage fails.  The run ends successfully exactly
when no stage fails (a data-quality failure never aborts the run). -/
theorem claim_C1_per_stage_transactions (f : Faults) (md5 : String → String)
    (tm : TimeModel) (cfg : Config) (file : Option (List RawRow)) (init : DB) :
    (run_etl_process f md5 tm cfg file init).2 = expectedDurable f md5 tm cfg file init
    ∧ ((run_etl_process f md5 tm cfg file init).1 = .ok ()
        ↔ etlRunSucceeds f md5 cfg file init = true) := by
  unfold run_etl_process expectedDurable etlRunSucceeds
  cases hv : validate_csv_structure file with
  | error e => simp
  | ok b =>
    cases hs : f.setup with
    | true => simp [setupStage]
    | false =>
      simp only [setupStage, Bool.false_eq_true, if_false, Conn.commit]
      cases hl : f.load with
      | true => simp [loadStage]
      | false =>
        simp only [loadStage, Bool.false_eq_true, if_false, Conn.commit]
        cases hld : load_telco_data md5 (file.getD [])
            (setup_pipeline_db_structure_effect init) with
        | error e2 => simp
        | ok p =>
          obtain ⟨d2, n⟩ := p
          simp only [Conn.commit]
          cases hvw : f.views with
          | true => simp [viewsStage]
          | false =>
            simp only [viewsStage, Bool.false_eq_true, if_false, Conn.commit]
            cases hren : cfg.ENABLE_RETENTION_POLICY with
            | false => simp [retentionStage, hren]
            | true =>
              cases hk : f.keep with
              | true => simp [retentionStage, hren, hk]
              | false => simp [retentionStage, hren, hk, Conn.commit]

end TelcoDwh
